import Mathlib

/-!
Shallow embedding of the order-composition core of the Restaurants_API
repository (a multi-tenant restaurant ordering backend), together with proofs
checking its natural-language specification against the code.

The embedding follows `src/routes/orders.js` (order creation and status
update), `src/controllers/comboController.js` (combo availability equivalence)
and the `extractRestaurantIdentifier` host parser (reproduced in
`src/RENDER_DEPLOYMENT.md`).  JavaScript numbers are modelled as rationals,
optional/nullable values as `Option`, and JS truthiness is spelled out
explicitly.  Database tables are lists of rows; Sequelize queries become list
filters.  `JSON.stringify` of the combo payload is modelled as an injective
structured value.  Request-body numeric fields are modelled as
numeric-or-absent, per the API's declared schema.
-/

/-- JS truthiness for a numeric-or-absent field (`undefined`, `null` and `0` are falsy). -/
def truthyNum : Option ℚ → Bool
  | none => false
  | some q => q != 0

/-- JS truthiness for an optional integer id field (`0` is falsy). -/
def truthyId : Option Nat → Bool
  | none => false
  | some n => n != 0

/-- JS truthiness for a string (only the empty string is falsy). -/
def truthyStr (s : String) : Bool := s != ""

/-- JS truthiness for a string-or-absent value. -/
def truthyOptStr : Option String → Bool
  | none => false
  | some s => truthyStr s

/-- JS `x || null` for an optional id (`0` collapses to `null`). -/
def jsOrNoneNat : Option Nat → Option Nat
  | some n => if n == 0 then none else some n
  | none => none

/-- JS `x || null` for an optional string (`""` collapses to `null`). -/
def jsOrNoneStr : Option String → Option String
  | some s => if s == "" then none else some s
  | none => none

/-- JS `x || d` for an optional string. -/
def jsOrDefaultStr (v : Option String) (d : String) : String :=
  match v with
  | some s => if s == "" then d else s
  | none => d

/-- `parseFloat(x)` for a numeric field, and `parseFloat(x || 0)` for deliveryFee:
an absent value maps to `0` (the handler only reaches this after its truthiness
guards, where it matters). -/
def jsNumOr0 : Option ℚ → ℚ
  | none => 0
  | some q => q

/-- JS template interpolation of a possibly-undefined id. -/
def jsShowOptNat : Option Nat → String
  | none => "undefined"
  | some n => toString n

/-- A row of the `menu_items` table (src/models/MenuItem.js). -/
structure MenuItemRow where
  id : Nat
  restaurantId : Nat
  name : String
  price : ℚ
  isAvailable : Bool
deriving DecidableEq

/-- A row of the `combo_types` table (src/models/ComboType.js). -/
structure ComboTypeRow where
  id : Nat
  name : String
  basePrice : ℚ
  baseItems : Nat
  additionalItemPrice : Option ℚ
deriving DecidableEq

/-- A row of the `combo_available_items` join table. -/
structure ComboAvailRow where
  comboTypeId : Nat
  menuItemId : Nat
  isEntree : Bool
  displayOrder : Nat
deriving DecidableEq

/-- A row of the `orders` table (src/models/Order.js); fields not touched by the
claims under study (order number, stripe intent, timestamps) are omitted. -/
structure OrderRow where
  id : Nat
  restaurantId : Nat
  userId : Option Nat
  customerEmail : String
  customerFirstName : String
  customerLastName : String
  customerPhone : String
  customerAddress : Option String
  orderType : String
  paymentMethod : String
  paymentStatus : String
  subtotal : ℚ
  tax : ℚ
  deliveryFee : ℚ
  total : ℚ
  status : String
deriving DecidableEq

/-- The serialized `itemName` column of an order item: either a plain name or
the `JSON.stringify`-ed combo payload, modelled as a structured value. -/
inductive StoredItemName where
  | plain (name : String)
  | combo (comboId : Option Nat) (selectedItems additionalItems : List (Option Nat))
      (baseChoice : Option Nat) (originalName : String)
deriving DecidableEq

/-- A row of the `order_items` table. -/
structure OrderItemRow where
  orderId : Nat
  menuItemId : Option Nat
  quantity : Nat
  price : ℚ
  itemName : StoredItemName
deriving DecidableEq

/-- The relational store, one list per table, plus the next order primary key. -/
structure DB where
  menuItems : List MenuItemRow
  comboTypes : List ComboTypeRow
  comboAvailableItems : List ComboAvailRow
  orders : List OrderRow
  orderItems : List OrderItemRow
  nextOrderId : Nat
deriving DecidableEq

/-- One entry of the request body's `items` array: a regular line or a combo
line, exactly the duck-typed shape the route branches on. -/
structure CartItem where
  isCombo : Bool
  menuItemId : Option Nat
  comboId : Option Nat
  selectedItems : List (Option Nat)
  additionalItems : List (Option Nat)
  baseChoice : Option Nat
  quantity : Nat
  price : ℚ
  itemName : String
deriving DecidableEq

/-- The POST /api/orders request body (orders.js lines 255-272). -/
structure OrderRequest where
  userId : Option Nat
  customerEmail : String
  customerFirstName : String
  customerLastName : String
  customerPhone : String
  customerAddress : Option String
  orderType : String
  paymentMethod : String
  paymentStatus : Option String
  items : List CartItem
  subtotal : Option ℚ
  tax : Option ℚ
  deliveryFee : Option ℚ
  total : Option ℚ
  notes : Option String
deriving DecidableEq

def validOrderTypes : List String := ["pickup", "delivery"]

def validPaymentMethods : List String := ["card", "card_on_arrival", "cash_on_arrival"]

/-- The early-return field validations of POST /api/orders (orders.js 275-297),
returning the first 400 message, if any. -/
def basicCheck (req : OrderRequest) : Option String :=
  if !(truthyStr req.customerEmail && truthyStr req.customerFirstName &&
       truthyStr req.customerLastName && truthyStr req.customerPhone) then
    some "Customer information is required"
  else if !(truthyStr req.orderType && validOrderTypes.contains req.orderType) then
    some "Valid order type is required"
  else if req.orderType == "delivery" && !truthyOptStr req.customerAddress then
    some "Address is required for delivery orders"
  else if !(truthyStr req.paymentMethod && validPaymentMethods.contains req.paymentMethod) then
    some "Valid payment method is required"
  else if req.items.isEmpty then
    some "Order items are required"
  else if !(truthyNum req.subtotal && truthyNum req.tax && truthyNum req.total) then
    some "Order totals are required"
  else none

/-- The filter `item => !item.isCombo && item.menuItemId` (orders.js 303). -/
def isRegularLine (item : CartItem) : Bool := !item.isCombo && truthyId item.menuItemId

/-- `regularItems.map(item => item.menuItemId)` (orders.js 308); every element is
truthy by the filter, so `filterMap` extracts the same list. -/
def regularItemIds (items : List CartItem) : List Nat :=
  (items.filter isRegularLine).filterMap (·.menuItemId)

def regularItemsMessage : String :=
  "Some menu items are not available or do not belong to this restaurant"

/-- Regular-line validation (orders.js 307-320): one batched query scoped to the
resolved restaurant with `isAvailable = true`, whose row count is compared with
the length of the collected id list. -/
def regularCheck (db : DB) (restaurantId : Nat) (items : List CartItem) : Option String :=
  if (items.filter isRegularLine).isEmpty then none
  else
    let ids := regularItemIds items
    let found := db.menuItems.filter fun m =>
      ids.contains m.id && m.isAvailable && m.restaurantId == restaurantId
    if found.length ≠ ids.length then some regularItemsMessage else none

def comboItemsMessage : String := "Some combo menu items are not available"

/-- The deduplicated union of a combo line's referenced menu-item ids
(orders.js 336-343): `selectedItems ++ additionalItems ++ [baseChoice if truthy]`,
null/undefined entries dropped, then `new Set` (here `List.dedup`, which keeps
last occurrences where `Set` keeps first ones — length and membership agree). -/
def uniqueSelectedItems (item : CartItem) : List Nat :=
  ((item.selectedItems ++ item.additionalItems ++
      (if truthyId item.baseChoice then [item.baseChoice] else [])).filterMap id).dedup

/-- Per-combo-line validation (orders.js 326-366): the combo type must exist
(`findByPk`, not tenant-scoped) and the deduplicated referenced ids must all be
available (`isAvailable = true`, with no restaurant filter). -/
def comboLineCheck (db : DB) (item : CartItem) : Option String :=
  match db.comboTypes.find? (fun ct => some ct.id == item.comboId) with
  | none => some ("Combo type " ++ jsShowOptNat item.comboId ++ " is not available")
  | some _ =>
    let unique := uniqueSelectedItems item
    if unique.isEmpty then none
    else
      let found := db.menuItems.filter fun m => unique.contains m.id && m.isAvailable
      if found.length ≠ unique.length then some comboItemsMessage else none

/-- The `for (const comboItem of comboItems)` loop, stopping at the first error. -/
def combosCheck (db : DB) : List CartItem → Option String
  | [] => none
  | item :: rest =>
    match comboLineCheck db item with
    | some msg => some msg
    | none => combosCheck db rest

/-- The `Order.create` payload (orders.js 370-388). -/
def mkOrder (db : DB) (restaurantId : Nat) (req : OrderRequest) : OrderRow :=
  { id := db.nextOrderId
    restaurantId := restaurantId
    userId := jsOrNoneNat req.userId
    customerEmail := req.customerEmail
    customerFirstName := req.customerFirstName
    customerLastName := req.customerLastName
    customerPhone := req.customerPhone
    customerAddress := if req.orderType == "delivery" then req.customerAddress else none
    orderType := req.orderType
    paymentMethod := req.paymentMethod
    paymentStatus := jsOrDefaultStr req.paymentStatus "pending"
    subtotal := jsNumOr0 req.subtotal
    tax := jsNumOr0 req.tax
    deliveryFee := jsNumOr0 req.deliveryFee
    total := jsNumOr0 req.total
    status := "pending" }

/-- One `OrderItem.create` payload (orders.js 392-428): combo lines store the
structured payload with a null menuItemId and the client-declared price; regular
lines store the raw id and client-declared price, with a name lookup that again
queries only `isAvailable` (no restaurant filter). -/
def mkOrderItem (db : DB) (req : OrderRequest) (orderId : Nat) (item : CartItem) :
    OrderItemRow :=
  if item.isCombo then
    { orderId := orderId
      menuItemId := none
      quantity := item.quantity
      price := item.price
      itemName := .combo item.comboId item.selectedItems item.additionalItems
        (jsOrNoneNat item.baseChoice) item.itemName }
  else
    let ids := regularItemIds req.items
    let menuItem :=
      if (req.items.filter isRegularLine).isEmpty then none
      else (db.menuItems.filter fun m => ids.contains m.id && m.isAvailable).find?
        (fun m => some m.id == item.menuItemId)
    { orderId := orderId
      menuItemId := item.menuItemId
      quantity := item.quantity
      price := item.price
      itemName := .plain (if truthyStr item.itemName then item.itemName
        else match menuItem with
          | some m => m.name
          | none => item.itemName) }

/-- Outcome of the POST /api/orders handler. -/
inductive CreateResult where
  | badRequest (message : String)
  | serverError
  | created (order : OrderRow)
deriving DecidableEq

def CreateResult.isCreated : CreateResult → Bool
  | .created _ => true
  | _ => false

/-- Order persistence (orders.js 370-430): `Order.create` commits on its own,
then every `OrderItem.create` runs under `Promise.all` with no enclosing
transaction; `failItem i` says the i-th item write fails.  Failed writes leave
the order row and every successful item row in place and surface as the
catch-all 500. -/
def persistOrder (db : DB) (restaurantId : Nat) (req : OrderRequest)
    (failItem : Nat → Bool) : CreateResult × DB :=
  let order := mkOrder db restaurantId req
  let db1 : DB := { db with orders := db.orders ++ [order], nextOrderId := db.nextOrderId + 1 }
  let attempts := req.items.enum.map fun p =>
    if failItem p.1 then none else some (mkOrderItem db req order.id p.2)
  let written := attempts.filterMap id
  let db2 : DB := { db1 with orderItems := db1.orderItems ++ written }
  if attempts.any (·.isNone) then (.serverError, db2) else (.created order, db2)

/-- POST /api/orders (orders.js 253-468) as a function of the database, the
resolved restaurant id, the request body and the item-write failure oracle. -/
def handleCreateOrder (db : DB) (restaurantId : Nat) (req : OrderRequest)
    (failItem : Nat → Bool) : CreateResult × DB :=
  match basicCheck req with
  | some msg => (.badRequest msg, db)
  | none =>
    match regularCheck db restaurantId req.items with
    | some msg => (.badRequest msg, db)
    | none =>
      match combosCheck db (req.items.filter (·.isCombo)) with
      | some msg => (.badRequest msg, db)
      | none => persistOrder db restaurantId req failItem

def validStatuses : List String :=
  ["pending", "confirmed", "preparing", "ready", "completed", "cancelled"]

/-- Outcome of PUT /api/orders/:id/status. -/
inductive StatusUpdateResult where
  | badRequest (message : String)
  | notFound
  | ok (order : OrderRow)
deriving DecidableEq

/-- PUT /api/orders/:id/status (orders.js 569-600): membership check on the
submitted status value, tenant-scoped lookup, then `order.update({ status })`
with no transition guard.  Row update is modelled by id (primary key). -/
def updateOrderStatus (db : DB) (restaurantId orderId : Nat) (status : Option String) :
    StatusUpdateResult × DB :=
  if !(truthyOptStr status && validStatuses.contains (status.getD "")) then
    (.badRequest "Valid status is required", db)
  else
    match db.orders.find? (fun o => o.id == orderId && o.restaurantId == restaurantId) with
    | none => (.notFound, db)
    | some o =>
      let updated := { o with status := status.getD "" }
      (.ok updated,
        { db with orders := db.orders.map fun r => if r.id == o.id then updated else r })

/-- The static combo-availability equivalence (comboController.js 16-26): combo
types 3-7 reuse combo type 3's availability rows; types 1 and 2 use their own. -/
def effectiveAvailabilityId (comboTypeId : Nat) : Nat :=
  if [3, 4, 5, 6, 7].contains comboTypeId then 3 else comboTypeId

/-- The availability rows declared for `combo_type_id = c`, joined against
available menu items (the `ComboAvailableItems.findAll` query of
comboController.js 41-52; display ordering is omitted, the claims are about the
returned set). -/
def declaredAvailableItems (db : DB) (c : Nat) : List ComboAvailRow :=
  db.comboAvailableItems.filter fun r =>
    r.comboTypeId == c && db.menuItems.any fun m => m.id == r.menuItemId && m.isAvailable

/-- The selectable-item query of `getComboWithItems` after applying the
equivalence mapping. -/
def comboItemsQuery (db : DB) (comboTypeId : Nat) : List ComboAvailRow :=
  declaredAvailableItems db (effectiveAvailabilityId comboTypeId)

/-- Modelled from the spec (§4.2 steps 4-5): the catalog-priced line total — a
regular line is the catalog unit price times quantity, a combo line is the
ComboType's basePrice plus overflow items times additionalItemPrice (0 when
null), times quantity.  This is the spec's formula, for comparison with what
the code persists; the code itself computes no such quantity. -/
def specLineTotal (db : DB) (item : CartItem) : ℚ :=
  if item.isCombo then
    match db.comboTypes.find? (fun ct => some ct.id == item.comboId) with
    | some ct =>
      (ct.basePrice +
        ((item.additionalItems.filterMap id).length : ℚ) * ct.additionalItemPrice.getD 0) *
        (item.quantity : ℚ)
    | none => 0
  else
    match db.menuItems.find? (fun m => some m.id == item.menuItemId) with
    | some m => m.price * (item.quantity : ℚ)
    | none => 0

/-- Modelled from the spec (§8 pricing invariant): subtotal as the sum of
catalog-priced line totals. -/
def specCatalogSubtotal (db : DB) (items : List CartItem) : ℚ :=
  (items.map (specLineTotal db)).sum

/-- Everything before the first ':' of a host string (JS `host.split(':')[0]`). -/
def stripPort (s : String) : String := ⟨s.data.takeWhile (· ≠ ':')⟩

/-- JS `String.prototype.endsWith`. -/
def jsEndsWith (s pat : String) : Bool := decide (pat.data <:+ s.data)

/-- JS `String.prototype.includes`. -/
def jsIncludes (s pat : String) : Bool := decide (pat.data <:+: s.data)

/-- The part of `l` before the first occurrence of the (nonempty) pattern
`pat`, i.e. JS `l.split(pat)[0]`. -/
def beforeFirstAux (pat : List Char) : List Char → List Char
  | [] => []
  | c :: rest => if pat.isPrefixOf (c :: rest) then [] else c :: beforeFirstAux pat rest

/-- JS `s.split(pat)[0]` for a nonempty pattern. -/
def jsSplitHead (s pat : String) : String := ⟨beforeFirstAux pat.data s.data⟩

/-- Removal of the first occurrence of `pat` from `l`, i.e. JS `l.replace(pat, '')`. -/
def dropFirstAux (pat : List Char) : List Char → List Char
  | [] => []
  | c :: rest =>
    if pat.isPrefixOf (c :: rest) then (c :: rest).drop pat.length
    else c :: dropFirstAux pat rest

/-- JS `s.replace(pat, '')` (first occurrence only). -/
def jsReplaceFirst (s pat : String) : String := ⟨dropFirstAux pat.data s.data⟩

/-- The reserved subdomain list of the restaurant-context middleware. -/
def systemSubdomains : List String := ["www", "api", "admin", "app", "dashboard", "cdn", "static"]

/-- Host-to-tenant identifier extraction (`extractRestaurantIdentifier` of the
restaurant-context middleware, reproduced in src/RENDER_DEPLOYMENT.md 195-242):
strip the port; bare loopback hosts yield no identifier; `<name>.localhost` and
`<name>.<platformDomain>` yield `<name>` unless reserved; hosts containing
neither the platform domain nor the substring 'localhost' are returned whole as
custom-domain candidates; everything else yields no identifier. -/
def extractRestaurantIdentifier (platformDomain : String) (host : Option String) :
    Option String :=
  match host with
  | none => none
  | some h =>
    if h = "" then none
    else
      let cleanHost := stripPort h
      if cleanHost = "localhost" ∨ cleanHost = "127.0.0.1" then none
      else if jsEndsWith cleanHost ".localhost" then
        let subdomain := jsSplitHead cleanHost ".localhost"
        if systemSubdomains.contains subdomain then none else some subdomain
      else if jsEndsWith cleanHost ("." ++ platformDomain) then
        let subdomain := jsReplaceFirst cleanHost ("." ++ platformDomain)
        if systemSubdomains.contains subdomain then none else some subdomain
      else if !jsIncludes cleanHost platformDomain && !jsIncludes cleanHost "localhost" then
        some cleanHost
      else none

/-- The validations of POST /api/orders that run before the totals presence
check (orders.js 275-293), bundled for stating properties of the totals check. -/
def preTotalsChecksPass (req : OrderRequest) : Bool :=
  (truthyStr req.customerEmail && truthyStr req.customerFirstName &&
    truthyStr req.customerLastName && truthyStr req.customerPhone) &&
  (truthyStr req.orderType && validOrderTypes.contains req.orderType) &&
  !(req.orderType == "delivery" && !truthyOptStr req.customerAddress) &&
  (truthyStr req.paymentMethod && validPaymentMethods.contains req.paymentMethod) &&
  !req.items.isEmpty

/-- Concrete menu item: id 5, owned by restaurant 1, available, priced 13
(concrete prices are kept integral so that closed facts evaluate by `decide`). -/
def itemLemonChicken : MenuItemRow :=
  { id := 5, restaurantId := 1, name := "Lemon Chicken", price := 13, isAvailable := true }

/-- Concrete combo type: id 2, base price 25, additional item price 4. -/
def comboDinnerForTwo : ComboTypeRow :=
  { id := 2, name := "Combination Dinner for Two", basePrice := 25, baseItems := 3,
    additionalItemPrice := some 4 }

/-- Concrete catalog holding only restaurant 1's item 5 and combo type 2. -/
def demoDb : DB :=
  { menuItems := [itemLemonChicken], comboTypes := [comboDinnerForTwo],
    comboAvailableItems := [], orders := [], orderItems := [], nextOrderId := 1 }

/-- A regular cart line for item 5 with a chosen quantity and client-declared price. -/
def regularLine5 (quantity : Nat) (price : ℚ) : CartItem :=
  { isCombo := false, menuItemId := some 5, comboId := none, selectedItems := [],
    additionalItems := [], baseChoice := none, quantity := quantity, price := price,
    itemName := "Lemon Chicken" }

/-- A combo cart line for combo type 2 whose selected item is item 5. -/
def comboLine5 : CartItem :=
  { isCombo := true, menuItemId := none, comboId := some 2, selectedItems := [some 5],
    additionalItems := [], baseChoice := none, quantity := 1, price := 25,
    itemName := "Dinner for Two" }

/-- A request body with valid customer/payment fields and the given items and totals. -/
def demoRequest (items : List CartItem) (subtotal tax deliveryFee total : Option ℚ) :
    OrderRequest :=
  { userId := none, customerEmail := "jo@example.com", customerFirstName := "Jo",
    customerLastName := "Doe", customerPhone := "555-0100", customerAddress := none,
    orderType := "pickup", paymentMethod := "card", paymentStatus := none,
    items := items, subtotal := subtotal, tax := tax, deliveryFee := deliveryFee,
    total := total, notes := none }

/-- A pending order of restaurant 1 with id 1 and consistent totals. -/
def demoPendingOrder : OrderRow :=
  { id := 1, restaurantId := 1, userId := none, customerEmail := "jo@example.com",
    customerFirstName := "Jo", customerLastName := "Doe", customerPhone := "555-0100",
    customerAddress := none, orderType := "pickup", paymentMethod := "card",
    paymentStatus := "pending", subtotal := 2, tax := 1, deliveryFee := 0, total := 3,
    status := "pending" }

/-- A database holding only `demoPendingOrder`. -/
def demoOrderDb : DB :=
  { menuItems := [], comboTypes := [], comboAvailableItems := [],
    orders := [demoPendingOrder], orderItems := [], nextOrderId := 2 }

/-- A cart with one combo line selecting item 5 and consistent declared totals. -/
def requestComboCrossTenant : OrderRequest :=
  demoRequest [comboLine5] (some 25) (some 1) none (some 26)

/-- A cart listing the same regular item id on two lines. -/
def requestRegularPair : OrderRequest :=
  demoRequest [regularLine5 1 13, regularLine5 1 13] (some 26) (some 1) none (some 27)

/-- A cart declaring a client price of 1 for item 5, whose catalog price is 13. -/
def requestCheapClientPrice : OrderRequest :=
  demoRequest [regularLine5 2 1] (some 2) (some 1) none (some 3)

/-- A cart whose declared total (999) differs from subtotal + tax + deliveryFee (11). -/
def requestMismatchTotals : OrderRequest :=
  demoRequest [regularLine5 1 13] (some 10) (some 1) none (some 999)

/-- A cart whose declared tax is exactly 0. -/
def requestZeroTax : OrderRequest :=
  demoRequest [regularLine5 1 13] (some 13) (some 0) none (some 13)

/-- A valid single-item cart with consistent totals and no delivery fee. -/
def requestValidSingle : OrderRequest :=
  demoRequest [regularLine5 1 13] (some 13) (some 1) none (some 14)

/-- A combo line picking the same entree (item 5) twice. -/
def comboLineDup : CartItem :=
  { isCombo := true, menuItemId := none, comboId := some 2,
    selectedItems := [some 5, some 5], additionalItems := [], baseChoice := none,
    quantity := 1, price := 25, itemName := "Dinner for Two" }

/-- An availability table: rows for combo types 1, 2 and 3 (the canonical id of
the 3-7 equivalence group). -/
def demoAvailDb : DB :=
  { menuItems := [itemLemonChicken,
      { id := 6, restaurantId := 1, name := "Chicken Balls", price := 12, isAvailable := true },
      { id := 7, restaurantId := 1, name := "Beef Chow Mein", price := 14, isAvailable := true }],
    comboTypes := [comboDinnerForTwo],
    comboAvailableItems :=
      [{ comboTypeId := 1, menuItemId := 5, isEntree := true, displayOrder := 1 },
       { comboTypeId := 2, menuItemId := 6, isEntree := true, displayOrder := 1 },
       { comboTypeId := 3, menuItemId := 7, isEntree := true, displayOrder := 1 },
       { comboTypeId := 3, menuItemId := 5, isEntree := true, displayOrder := 2 }],
    orders := [], orderItems := [], nextOrderId := 1 }

/-! Helper lemmas. -/

/-- A list of options with at least one `none` loses length under `filterMap id`. -/
theorem filterMap_id_length_lt {α : Type} (l : List (Option α))
    (h : l.any (·.isNone) = true) : (l.filterMap id).length < l.length := by
  induction l with
  | nil => simp at h
  | cons a l ih =>
    cases a with
    | none =>
      simp only [List.filterMap_cons]
      exact Nat.lt_succ_of_le (List.length_filterMap_le id l)
    | some x =>
      have h' : l.any (·.isNone) = true := by simpa using h
      simpa [List.filterMap_cons] using Nat.succ_lt_succ (ih h')

/-- If no attempted item write failed, the written rows are exactly the mapped items. -/
theorem enum_if_all_some {α β : Type} (l : List α) (fail : Nat → Bool) (g : α → β)
    (hany : (l.enum.map fun p => if fail p.1 then none else some (g p.2)).any (·.isNone)
      = false) :
    (l.enum.map fun p => if fail p.1 then none else some (g p.2)).filterMap id = l.map g := by
  have hall := List.any_eq_false.1 hany
  have hmap : (l.enum.map fun p => if fail p.1 then none else some (g p.2))
      = l.enum.map fun p => some (g p.2) := by
    refine List.map_congr_left fun p hp => ?_
    have hmem := hall _ (List.mem_map_of_mem (fun p => if fail p.1 then none else some (g p.2)) hp)
    by_cases hf : fail p.1 = true
    · rw [if_pos hf] at hmem
      simp at hmem
    · rw [if_neg hf] at hmem ⊢
  rw [hmap]
  have h1 : (l.enum.map fun p => some (g p.2)).filterMap id
      = l.enum.map fun p => g p.2 := by
    induction l.enum with
    | nil => rfl
    | cons a t ih => simp [List.filterMap_cons, ih]
  rw [h1]
  calc l.enum.map (fun p => g p.2) = (l.enum.map Prod.snd).map g := by
        rw [List.map_map]
        rfl
    _ = l.map g := by rw [List.enum_map_snd]

/-- Stored order-item rows always carry the client-declared line price. -/
theorem mkOrderItem_price (db : DB) (req : OrderRequest) (orderId : Nat) (item : CartItem) :
    (mkOrderItem db req orderId item).price = item.price := by
  unfold mkOrderItem
  split <;> rfl

/-- When a menu-item filter only matches rows whose id lies in a duplicate-free
list `l`, the filter returns at most `l.length` rows (ids are a primary key). -/
theorem menu_filter_length_le (db : DB) (p : MenuItemRow → Bool) (l : List Nat)
    (hnodup : (db.menuItems.map (·.id)).Nodup)
    (hsub : ∀ row ∈ db.menuItems, p row = true → row.id ∈ l) :
    (db.menuItems.filter p).length ≤ l.length := by
  have h1 : ((db.menuItems.filter p).map (·.id)).Nodup :=
    hnodup.sublist ((List.filter_sublist _).map _)
  have h2 : ((db.menuItems.filter p).map (·.id)) ⊆ l := by
    intro x hx
    rcases List.mem_map.1 hx with ⟨row, hrow, rfl⟩
    rcases List.mem_filter.1 hrow with ⟨hmem, hp⟩
    exact hsub row hmem hp
  have h3 := (List.subperm_of_subset h1 h2).length_le
  simpa using h3

/-- Anatomy of a successful order creation: the handler returned the
`Order.create` payload, every validation passed, and the order row plus one
item row per cart line were appended. -/
theorem handleCreateOrder_created_spec (db : DB) (rid : Nat) (req : OrderRequest)
    (failItem : Nat → Bool) (o : OrderRow) (db' : DB)
    (h : handleCreateOrder db rid req failItem = (.created o, db')) :
    o = mkOrder db rid req ∧ basicCheck req = none ∧
    db'.orders = db.orders ++ [o] ∧
    db'.orderItems = db.orderItems ++ req.items.map (mkOrderItem db req db.nextOrderId) := by
  unfold handleCreateOrder at h
  split at h
  · simp at h
  · split at h
    · simp at h
    · split at h
      · simp at h
      · simp only [persistOrder] at h
        split at h
        · simp at h
        · next hany =>
          rw [Bool.not_eq_true] at hany
          rw [Prod.mk.injEq, CreateResult.created.injEq] at h
          obtain ⟨ho, hdb⟩ := h
          subst hdb
          refine ⟨ho.symm, by assumption, by rw [← ho], ?_⟩
          simp only [← ho]
          rw [enum_if_all_some _ _ _ hany]
          rfl

/-- C1 counterexample: under resolved tenant 2, a cart whose combo line's
`selectedItems` references item 5 — which belongs to tenant 1 — is accepted and
an order is created, because the combo-item availability query (orders.js
348-354) filters only on `isAvailable`, not on the restaurant.  This refutes
the claim that a cross-tenant item inside a combo line is rejected with a 400. -/
theorem C1_counterexample :
    (handleCreateOrder demoDb 2
        requestComboCrossTenant
        (fun _ => false)).1.isCreated = true ∧
    (handleCreateOrder demoDb 2
        requestComboCrossTenant
        (fun _ => false)).2.orders.length = 1 ∧
    (∀ row ∈ demoDb.menuItems, row.id = 5 → row.restaurantId ≠ 2) := by
  refine ⟨by decide, by decide, by decide⟩

/-- C1 (amended): tenant isolation holds for regular cart lines only — if some
regular line references an id that has no available row owned by the resolved
restaurant, POST /api/orders answers with a 400 validation message and the
database is unchanged; combo-line selections are NOT tenant-checked (see the
counterexample). -/
theorem regular_line_cross_tenant_rejected
    (db : DB) (rid : Nat) (req : OrderRequest) (failItem : Nat → Bool) (m : Nat)
    (hnodup : (db.menuItems.map (·.id)).Nodup)
    (hline : ∃ item ∈ req.items, item.isCombo = false ∧ item.menuItemId = some m ∧ m ≠ 0)
    (hforeign : ∀ row ∈ db.menuItems, row.id = m →
      ¬(row.isAvailable = true ∧ row.restaurantId = rid)) :
    ∃ msg, handleCreateOrder db rid req failItem = (.badRequest msg, db) := by
  obtain ⟨item, hitem, hic, hid, hm0⟩ := hline
  have hreg : item ∈ req.items.filter isRegularLine := by
    refine List.mem_filter.2 ⟨hitem, ?_⟩
    simp [isRegularLine, hic, hid, truthyId, hm0]
  have hmids : m ∈ regularItemIds req.items := List.mem_filterMap.2 ⟨item, hreg, hid⟩
  have hfound : (db.menuItems.filter fun mi =>
      (regularItemIds req.items).contains mi.id && mi.isAvailable &&
        mi.restaurantId == rid).length < (regularItemIds req.items).length := by
    have hsub : ∀ row ∈ db.menuItems,
        ((regularItemIds req.items).contains row.id && row.isAvailable &&
          row.restaurantId == rid) = true →
        row.id ∈ ((regularItemIds req.items).dedup.erase m) := by
      intro row hrow hp
      simp only [Bool.and_eq_true, beq_iff_eq] at hp
      have hmemid : row.id ∈ regularItemIds req.items := List.elem_iff.1 hp.1.1
      have hne : row.id ≠ m := by
        intro hrm
        exact hforeign row hrow hrm ⟨hp.1.2, hp.2⟩
      exact (List.mem_erase_of_ne hne).2 (List.mem_dedup.2 hmemid)
    have hle := menu_filter_length_le db _ _ hnodup hsub
    have hmd : m ∈ (regularItemIds req.items).dedup := List.mem_dedup.2 hmids
    have h1 : ((regularItemIds req.items).dedup.erase m).length
        = (regularItemIds req.items).dedup.length - 1 := List.length_erase_of_mem hmd
    have h2 : 0 < (regularItemIds req.items).dedup.length := List.length_pos_of_mem hmd
    have h3 : (regularItemIds req.items).dedup.length ≤ (regularItemIds req.items).length :=
      (regularItemIds req.items).dedup_sublist.length_le
    omega
  have hrc : regularCheck db rid req.items = some regularItemsMessage := by
    simp only [regularCheck]
    rw [if_neg ?_, if_pos (Nat.ne_of_lt hfound)]
    intro hemp
    rw [List.isEmpty_iff] at hemp
    rw [hemp] at hreg
    exact absurd hreg (List.not_mem_nil item)
  cases hb : basicCheck req with
  | some msg => exact ⟨msg, by simp [handleCreateOrder, hb]⟩
  | none => exact ⟨regularItemsMessage, by simp [handleCreateOrder, hb, hrc]⟩

/-- C1 witness: the amended theorem applied to a concrete cart that references
item 5 (owned by tenant 1, available) on a regular line under resolved tenant 2. -/
theorem regular_line_cross_tenant_rejected_witness :
    ∃ msg, handleCreateOrder demoDb 2 requestValidSingle (fun _ => false)
      = (.badRequest msg, demoDb) :=
  regular_line_cross_tenant_rejected demoDb 2 requestValidSingle
    (fun _ => false) 5 (by decide)
    ⟨regularLine5 1 13, by decide, by decide, by decide, by decide⟩
    (by decide)

/-- C2 counterexample: a cart declaring unit price 1 (and subtotal 2) for item 5,
whose catalog price is 13, is accepted, and the persisted subtotal is the
client-declared 2, not the catalog-priced 26: the handler never recomputes
prices from the catalog. -/
theorem C2_counterexample :
    (handleCreateOrder demoDb 1 requestCheapClientPrice (fun _ => false)).1
      = .created (mkOrder demoDb 1 requestCheapClientPrice) ∧
    (mkOrder demoDb 1 requestCheapClientPrice).subtotal = 2 ∧
    specCatalogSubtotal demoDb requestCheapClientPrice.items = 26 ∧
    (mkOrder demoDb 1 requestCheapClientPrice).subtotal
      ≠ specCatalogSubtotal demoDb requestCheapClientPrice.items := by
  have hfind : demoDb.menuItems.find? (fun m => m.id == 5)
      = some itemLemonChicken := by decide
  have h26 : specCatalogSubtotal demoDb requestCheapClientPrice.items = 26 := by
    simp [specCatalogSubtotal, requestCheapClientPrice, demoRequest, specLineTotal,
      regularLine5, hfind, itemLemonChicken]
    norm_num
  have h2 : (mkOrder demoDb 1 requestCheapClientPrice).subtotal = 2 := by decide
  refine ⟨by decide, h2, h26, ?_⟩
  rw [h2, h26]
  norm_num

/-- C2 (amended): for every accepted order, the persisted subtotal and total are
exactly the client-declared values (after `parseFloat`), and every persisted
order-item row carries the client-declared line price; catalog prices play no
role in what is stored. -/
theorem persisted_prices_are_client_declared
    (db : DB) (rid : Nat) (req : OrderRequest) (failItem : Nat → Bool) (o : OrderRow)
    (db' : DB) (h : handleCreateOrder db rid req failItem = (.created o, db')) :
    o.subtotal = jsNumOr0 req.subtotal ∧ o.total = jsNumOr0 req.total ∧
    db'.orderItems = db.orderItems ++ req.items.map (mkOrderItem db req db.nextOrderId) ∧
    ∀ item : CartItem, (mkOrderItem db req db.nextOrderId item).price = item.price := by
  obtain ⟨ho, -, -, hitems⟩ := handleCreateOrder_created_spec db rid req failItem o db' h
  subst ho
  exact ⟨rfl, rfl, hitems, fun item => mkOrderItem_price db req db.nextOrderId item⟩

/-- C2 witness: the amended theorem applied to the concrete cheap-price cart. -/
theorem persisted_prices_are_client_declared_witness :
    (mkOrder demoDb 1 requestCheapClientPrice).subtotal
        = jsNumOr0 requestCheapClientPrice.subtotal ∧
    (mkOrder demoDb 1 requestCheapClientPrice).total
        = jsNumOr0 requestCheapClientPrice.total ∧
    (handleCreateOrder demoDb 1 requestCheapClientPrice (fun _ => false)).2.orderItems
        = demoDb.orderItems ++ requestCheapClientPrice.items.map
            (mkOrderItem demoDb requestCheapClientPrice demoDb.nextOrderId) ∧
    ∀ item : CartItem,
        (mkOrderItem demoDb requestCheapClientPrice demoDb.nextOrderId item).price
          = item.price :=
  persisted_prices_are_client_declared demoDb 1 requestCheapClientPrice (fun _ => false)
    (mkOrder demoDb 1 requestCheapClientPrice)
    (handleCreateOrder demoDb 1 requestCheapClientPrice (fun _ => false)).2 (by decide)

/-- C3 counterexample: with the single item write failing, the handler answers
500 but the order row is already persisted with zero item rows — partial
persistence is an observable state, refuting the atomicity claim. -/
theorem C3_counterexample :
    (handleCreateOrder demoDb 1 requestValidSingle (fun _ => true)).1 = .serverError ∧
    (handleCreateOrder demoDb 1 requestValidSingle (fun _ => true)).2.orders.length = 1 ∧
    (handleCreateOrder demoDb 1 requestValidSingle (fun _ => true)).2.orderItems.length
      = 0 := by
  refine ⟨by decide, by decide, by decide⟩

/-- C3 (amended): order persistence is not transactional — whenever the handler
answers 500 from a failed item write, the Order row has already been appended
and strictly fewer item rows than cart lines were written, none rolled back. -/
theorem item_write_failure_leaves_partial_order
    (db : DB) (rid : Nat) (req : OrderRequest) (failItem : Nat → Bool) (db' : DB)
    (h : handleCreateOrder db rid req failItem = (.serverError, db')) :
    db'.orders = db.orders ++ [mkOrder db rid req] ∧
    db'.orderItems.length < db.orderItems.length + req.items.length := by
  unfold handleCreateOrder at h
  split at h
  · simp at h
  · split at h
    · simp at h
    · split at h
      · simp at h
      · simp only [persistOrder] at h
        split at h
        · next hany =>
          rw [Prod.mk.injEq] at h
          obtain ⟨-, hdb⟩ := h
          subst hdb
          refine ⟨rfl, ?_⟩
          simp only [List.length_append]
          have hlt := filterMap_id_length_lt _ hany
          have hlen : (req.items.enum.map fun p => if failItem p.1 then none
              else some (mkOrderItem db req (mkOrder db rid req).id p.2)).length
              = req.items.length := by
            simp [List.enum_length]
          omega
        · simp at h

/-- C3 witness: the amended theorem applied to the concrete failing write. -/
theorem item_write_failure_leaves_partial_order_witness :
    (handleCreateOrder demoDb 1 requestValidSingle (fun _ => true)).2.orders
        = demoDb.orders ++ [mkOrder demoDb 1 requestValidSingle] ∧
    (handleCreateOrder demoDb 1 requestValidSingle (fun _ => true)).2.orderItems.length
        < demoDb.orderItems.length + requestValidSingle.items.length :=
  item_write_failure_leaves_partial_order demoDb 1 requestValidSingle (fun _ => true)
    (handleCreateOrder demoDb 1 requestValidSingle (fun _ => true)).2 (by decide)

/-- C4 counterexample: a cart declaring subtotal 10, tax 1, no delivery fee and
total 999 is accepted and persisted with those exact values, although
10 + 1 + 0 = 11 differs from 999: no TOTALS_MISMATCH re-verification exists. -/
theorem C4_counterexample :
    (handleCreateOrder demoDb 1 requestMismatchTotals (fun _ => false)).1
      = .created (mkOrder demoDb 1 requestMismatchTotals) ∧
    (mkOrder demoDb 1 requestMismatchTotals).subtotal
        + (mkOrder demoDb 1 requestMismatchTotals).tax
        + (mkOrder demoDb 1 requestMismatchTotals).deliveryFee = 11 ∧
    (mkOrder demoDb 1 requestMismatchTotals).total = 999 ∧
    (mkOrder demoDb 1 requestMismatchTotals).subtotal
        + (mkOrder demoDb 1 requestMismatchTotals).tax
        + (mkOrder demoDb 1 requestMismatchTotals).deliveryFee
      ≠ (mkOrder demoDb 1 requestMismatchTotals).total := by
  have hs : (mkOrder demoDb 1 requestMismatchTotals).subtotal = 10 := by decide
  have ht : (mkOrder demoDb 1 requestMismatchTotals).tax = 1 := by decide
  have hd : (mkOrder demoDb 1 requestMismatchTotals).deliveryFee = 0 := by decide
  have htot : (mkOrder demoDb 1 requestMismatchTotals).total = 999 := by decide
  refine ⟨by decide, ?_, htot, ?_⟩
  · rw [hs, ht, hd]
    norm_num
  · rw [hs, ht, hd, htot]
    norm_num

/-- C4 (amended): order creation checks only that subtotal, tax and total are
truthy; all four declared totals are persisted verbatim with no consistency
check, so stored subtotal + tax + deliveryFee may differ from stored total
(see the counterexample). -/
theorem totals_not_cross_checked
    (db : DB) (rid : Nat) (req : OrderRequest) (failItem : Nat → Bool) (o : OrderRow)
    (db' : DB) (h : handleCreateOrder db rid req failItem = (.created o, db')) :
    o.subtotal = jsNumOr0 req.subtotal ∧ o.tax = jsNumOr0 req.tax ∧
    o.deliveryFee = jsNumOr0 req.deliveryFee ∧ o.total = jsNumOr0 req.total := by
  obtain ⟨ho, -, -, -⟩ := handleCreateOrder_created_spec db rid req failItem o db' h
  subst ho
  exact ⟨rfl, rfl, rfl, rfl⟩

/-- C4 witness: the amended theorem applied to the mismatched-totals cart. -/
theorem totals_not_cross_checked_witness :
    (mkOrder demoDb 1 requestMismatchTotals).subtotal
        = jsNumOr0 requestMismatchTotals.subtotal ∧
    (mkOrder demoDb 1 requestMismatchTotals).tax = jsNumOr0 requestMismatchTotals.tax ∧
    (mkOrder demoDb 1 requestMismatchTotals).deliveryFee
        = jsNumOr0 requestMismatchTotals.deliveryFee ∧
    (mkOrder demoDb 1 requestMismatchTotals).total = jsNumOr0 requestMismatchTotals.total :=
  totals_not_cross_checked demoDb 1 requestMismatchTotals (fun _ => false)
    (mkOrder demoDb 1 requestMismatchTotals)
    (handleCreateOrder demoDb 1 requestMismatchTotals (fun _ => false)).2 (by decide)

/-- C5 counterexample: an order currently in status 'pending' is moved directly
to 'completed' by PUT /api/orders/:id/status — the update succeeds and the
stored status becomes 'completed', refuting the claimed state machine (which
would demand an InvalidTransition error and an unchanged status). -/
theorem C5_counterexample :
    (updateOrderStatus demoOrderDb 1 1 (some "completed")).1
      = .ok { demoPendingOrder with status := "completed" } ∧
    (updateOrderStatus demoOrderDb 1 1 (some "completed")).2.orders.map (·.status)
      = ["completed"] ∧
    demoPendingOrder.status = "pending" := by
  refine ⟨by decide, by decide, by decide⟩

/-- C5 (amended): the status route validates only that the submitted value is
one of the six known statuses; every member is applied unconditionally whatever
the current status (no transition relation, no InvalidTransition error), and a
non-member gets a 400 with the database unchanged. -/
theorem status_update_membership_only
    (db : DB) (rid oid : Nat) (o : OrderRow)
    (hfind : db.orders.find? (fun r => r.id == oid && r.restaurantId == rid) = some o) :
    (∀ s ∈ validStatuses,
      updateOrderStatus db rid oid (some s) =
        (.ok { o with status := s },
          { db with orders := db.orders.map fun r =>
              if r.id == o.id then { o with status := s } else r })) ∧
    (∀ s, s ∉ validStatuses →
      updateOrderStatus db rid oid (some s)
        = (.badRequest "Valid status is required", db)) := by
  constructor
  · intro s hs
    have hsplit : s = "pending" ∨ s = "confirmed" ∨ s = "preparing" ∨ s = "ready" ∨
        s = "completed" ∨ s = "cancelled" := by simpa [validStatuses] using hs
    simp [updateOrderStatus, hfind]
    exact ⟨by rcases hsplit with rfl | rfl | rfl | rfl | rfl | rfl <;> decide, hs⟩
  · intro s hnot
    simp [updateOrderStatus]
    intro _ habs
    exact absurd habs hnot

/-- C5 witness: the amended theorem applied to the concrete pending order —
'completed' is applied directly, 'bogus' is refused. -/
theorem status_update_membership_only_witness :
    updateOrderStatus demoOrderDb 1 1 (some "completed")
      = (.ok { demoPendingOrder with status := "completed" },
         { demoOrderDb with orders := demoOrderDb.orders.map fun r =>
             if r.id == demoPendingOrder.id then { demoPendingOrder with status := "completed" }
             else r }) ∧
    updateOrderStatus demoOrderDb 1 1 (some "bogus")
      = (.badRequest "Valid status is required", demoOrderDb) :=
  ⟨(status_update_membership_only demoOrderDb 1 1 demoPendingOrder (by decide)).1
      "completed" (by decide),
   (status_update_membership_only demoOrderDb 1 1 demoPendingOrder (by decide)).2
      "bogus" (by decide)⟩

/-- C6 counterexample: a cart listing the same available, tenant-owned item id 5
on two regular lines is rejected with the ITEMS_UNAVAILABLE message, because the
query's row count (1) is compared against the non-deduplicated id count (2) —
refuting the claim that such a cart is accepted. -/
theorem C6_counterexample :
    handleCreateOrder demoDb 1 requestRegularPair (fun _ => false)
      = (.badRequest regularItemsMessage, demoDb) ∧
    (∃ row ∈ demoDb.menuItems,
      row.id = 5 ∧ row.isAvailable = true ∧ row.restaurantId = 1) := by
  refine ⟨by decide, by decide⟩

/-- C6 (amended): regular-line validation collects the referenced ids WITHOUT
deduplication and accepts exactly when the tenant-scoped availability query
returns one row per collected id counted with multiplicity: a duplicate id
forces rejection with the ITEMS_UNAVAILABLE message, while a duplicate-free id
list whose every id has an available row owned by the tenant passes. -/
theorem regular_validation_counts_with_multiplicity
    (db : DB) (rid : Nat) (items : List CartItem)
    (hnodup : (db.menuItems.map (·.id)).Nodup) :
    (¬ (regularItemIds items).Nodup →
      regularCheck db rid items = some regularItemsMessage) ∧
    ((regularItemIds items).Nodup →
      (∀ m ∈ regularItemIds items, ∃ row ∈ db.menuItems,
        row.id = m ∧ row.isAvailable = true ∧ row.restaurantId = rid) →
      regularCheck db rid items = none) := by
  constructor
  · intro hdup
    have hne : regularItemIds items ≠ [] := fun h => hdup (h ▸ List.nodup_nil)
    have hfe : items.filter isRegularLine ≠ [] := by
      intro h
      exact hne (by simp [regularItemIds, h])
    have hsub : ∀ row ∈ db.menuItems,
        ((regularItemIds items).contains row.id && row.isAvailable &&
          row.restaurantId == rid) = true →
        row.id ∈ (regularItemIds items).dedup := by
      intro row hrow hp
      simp only [Bool.and_eq_true] at hp
      exact List.mem_dedup.2 (List.elem_iff.1 hp.1.1)
    have hle := menu_filter_length_le db _ _ hnodup hsub
    have hlt : (regularItemIds items).dedup.length < (regularItemIds items).length := by
      rcases Nat.lt_or_ge (regularItemIds items).dedup.length
          (regularItemIds items).length with h1 | h1
      · exact h1
      · exact absurd (List.dedup_eq_self.1 ((regularItemIds items).dedup_sublist.eq_of_length
          (Nat.le_antisymm (regularItemIds items).dedup_sublist.length_le h1))) hdup
    have hfound : (db.menuItems.filter fun m =>
        (regularItemIds items).contains m.id && m.isAvailable &&
          m.restaurantId == rid).length ≠ (regularItemIds items).length := by omega
    simp only [regularCheck]
    rw [if_neg (by simpa [List.isEmpty_iff] using hfe), if_pos hfound]
  · intro hids hall
    by_cases hemp : (items.filter isRegularLine).isEmpty
    · simp only [regularCheck]
      rw [if_pos hemp]
    · have hsub : ∀ row ∈ db.menuItems,
          ((regularItemIds items).contains row.id && row.isAvailable &&
            row.restaurantId == rid) = true →
          row.id ∈ regularItemIds items := by
        intro row hrow hp
        simp only [Bool.and_eq_true] at hp
        exact List.elem_iff.1 hp.1.1
      have hle := menu_filter_length_le db _ _ hnodup hsub
      have hsubset : regularItemIds items ⊆ (db.menuItems.filter fun m =>
          (regularItemIds items).contains m.id && m.isAvailable &&
            m.restaurantId == rid).map (·.id) := by
        intro m hm
        rcases hall m hm with ⟨row, hrow, hid, hav, hrid⟩
        have hc : (regularItemIds items).contains row.id = true :=
          List.elem_iff.2 (by rw [hid]; exact hm)
        refine List.mem_map.2 ⟨row, List.mem_filter.2 ⟨hrow, ?_⟩, hid⟩
        simp [hc, hav, hrid]
        rw [hid]
        exact hm
      have hge := (List.subperm_of_subset hids hsubset).length_le
      rw [List.length_map] at hge
      have heq : (db.menuItems.filter fun m =>
          (regularItemIds items).contains m.id && m.isAvailable &&
            m.restaurantId == rid).length = (regularItemIds items).length :=
        Nat.le_antisymm hle hge
      simp only [regularCheck]
      rw [if_neg hemp, if_neg (fun hne => hne heq)]

/-- C6 witness: the amended theorem applied to the duplicate-id cart (rejected)
and to the single-line cart (accepted). -/
theorem regular_validation_counts_with_multiplicity_witness :
    regularCheck demoDb 1 requestRegularPair.items = some regularItemsMessage ∧
    regularCheck demoDb 1 requestValidSingle.items = none :=
  ⟨(regular_validation_counts_with_multiplicity demoDb 1 requestRegularPair.items
      (by decide)).1 (by decide),
   (regular_validation_counts_with_multiplicity demoDb 1 requestValidSingle.items
      (by decide)).2 (by decide) (by decide)⟩

/-- C7 (confirmed): per combo line, validation unions selectedItems,
additionalItems and a truthy baseChoice, drops null entries, deduplicates, and
— when the combo type exists and the catalog's ids are a primary key — fails
with the combo ITEMS_UNAVAILABLE message exactly when the availability query
returns fewer rows than the deduplicated count; moreover the outcome depends
only on the deduplicated id set, so duplicate ids within one combo line never
by themselves cause rejection. -/
theorem combo_line_validation_dedup
    (db : DB) (item : CartItem)
    (hnodup : (db.menuItems.map (·.id)).Nodup)
    (hct : ∃ ct ∈ db.comboTypes, some ct.id = item.comboId) :
    (comboLineCheck db item = some comboItemsMessage ↔
      (db.menuItems.filter fun m =>
        (uniqueSelectedItems item).contains m.id && m.isAvailable).length
        < (uniqueSelectedItems item).length) ∧
    (∀ item' : CartItem, item'.comboId = item.comboId →
      (∀ n, n ∈ uniqueSelectedItems item' ↔ n ∈ uniqueSelectedItems item) →
      comboLineCheck db item' = comboLineCheck db item) := by
  have hnd : ∀ x : CartItem, (uniqueSelectedItems x).Nodup := fun x => List.nodup_dedup _
  constructor
  · obtain ⟨ct0, hmem0, hceq0⟩ := hct
    obtain ⟨ct, hfind⟩ : ∃ ct,
        db.comboTypes.find? (fun c => some c.id == item.comboId) = some ct :=
      Option.isSome_iff_exists.mp
        (List.find?_isSome.2 ⟨ct0, hmem0, beq_iff_eq.2 hceq0⟩)
    simp only [comboLineCheck, hfind]
    by_cases hemp : (uniqueSelectedItems item).isEmpty
    · rw [if_pos hemp]
      have h0 : uniqueSelectedItems item = [] := List.isEmpty_iff.1 hemp
      rw [h0]
      simp
    · rw [if_neg hemp]
      have hle : (db.menuItems.filter fun m =>
          (uniqueSelectedItems item).contains m.id && m.isAvailable).length
          ≤ (uniqueSelectedItems item).length := by
        refine menu_filter_length_le db _ _ hnodup ?_
        intro row hrow hp
        simp only [Bool.and_eq_true] at hp
        exact List.elem_iff.1 hp.1
      constructor
      · intro h
        by_cases hne : (db.menuItems.filter fun m =>
            (uniqueSelectedItems item).contains m.id && m.isAvailable).length
            = (uniqueSelectedItems item).length
        · rw [if_neg (fun hx => hx hne)] at h
          exact absurd h (by simp)
        · omega
      · intro hlt
        rw [if_pos (Nat.ne_of_lt hlt)]
  · intro item' hcid hset
    have hlen : (uniqueSelectedItems item').length = (uniqueSelectedItems item).length :=
      Nat.le_antisymm
        (List.subperm_of_subset (hnd item') (fun n hn => (hset n).1 hn)).length_le
        (List.subperm_of_subset (hnd item) (fun n hn => (hset n).2 hn)).length_le
    have hfilter : (db.menuItems.filter fun m =>
        (uniqueSelectedItems item').contains m.id && m.isAvailable)
        = db.menuItems.filter fun m =>
          (uniqueSelectedItems item).contains m.id && m.isAvailable := by
      refine List.filter_congr ?_
      intro row hrow
      have hcc : (uniqueSelectedItems item').contains row.id
          = (uniqueSelectedItems item).contains row.id := by
        cases hca : (uniqueSelectedItems item').contains row.id <;>
          cases hcb : (uniqueSelectedItems item).contains row.id
        · rfl
        · have h2 : (uniqueSelectedItems item').contains row.id = true :=
            List.elem_iff.2 ((hset row.id).2 (List.elem_iff.1 hcb))
          rw [hca] at h2
          simp at h2
        · have h2 : (uniqueSelectedItems item).contains row.id = true :=
            List.elem_iff.2 ((hset row.id).1 (List.elem_iff.1 hca))
          rw [hcb] at h2
          simp at h2
        · rfl
      rw [hcc]
    have hempty : (uniqueSelectedItems item').isEmpty = (uniqueSelectedItems item).isEmpty := by
      cases he : uniqueSelectedItems item with
      | nil =>
        have : uniqueSelectedItems item' = [] := by
          rw [he] at hlen
          exact List.length_eq_zero.1 (by simpa using hlen)
        rw [this]
      | cons a t =>
        cases he' : uniqueSelectedItems item' with
        | nil =>
          rw [he', he] at hlen
          simp at hlen
        | cons b u => rfl
    simp only [comboLineCheck, hcid, hfilter, hlen, hempty]

/-- C7 witness: the theorem applied to the concrete catalog — a combo line
choosing item 5 twice validates exactly like the line choosing it once. -/
theorem combo_line_validation_dedup_witness :
    comboLineCheck demoDb comboLineDup = comboLineCheck demoDb comboLine5 :=
  (combo_line_validation_dedup demoDb comboLine5 (by decide)
      ⟨comboDinnerForTwo, by decide, by decide⟩).2 comboLineDup (by decide)
    (fun n => by rw [show uniqueSelectedItems comboLineDup = uniqueSelectedItems comboLine5
      from by decide])

/-- C8 counterexample: the host 'mylocalhost.com' is outside the platform
domain 'yourapi.com' (it matches neither the `<name>.<platformDomain>` nor the
`<name>.localhost` shape and is no loopback), yet the extractor returns no
identifier instead of the full cleaned host, because the custom-domain branch
also requires that the host not CONTAIN the substring 'localhost'. -/
theorem C8_counterexample :
    extractRestaurantIdentifier "yourapi.com" (some "mylocalhost.com") = none ∧
    "mylocalhost.com" ≠ "localhost" ∧ "mylocalhost.com" ≠ "127.0.0.1" ∧
    jsEndsWith "mylocalhost.com" ".localhost" = false ∧
    jsEndsWith "mylocalhost.com" ".yourapi.com" = false := by
  refine ⟨by rfl, by decide, by decide, by rfl, by rfl⟩

/-- C8 (amended): the extractor strips a ':port' suffix, maps loopback hosts
and reserved platform/localhost subdomains to no identifier, maps
`<name>.localhost` and `<name>.<platformDomain>` to `<name>`, and returns the
full cleaned host as a custom-domain candidate only for hosts containing
NEITHER the platform domain NOR the substring 'localhost'; other hosts outside
the platform domain (e.g. 'mylocalhost.com') yield no identifier. -/
theorem extract_identifier_characterization :
    (∀ pd, extractRestaurantIdentifier pd (some "pizzapalace.localhost")
      = some "pizzapalace") ∧
    (∀ pd, extractRestaurantIdentifier pd (some "pizzapalace.localhost:5000")
      = some "pizzapalace") ∧
    (∀ pd, extractRestaurantIdentifier pd (some "localhost") = none) ∧
    (∀ pd, extractRestaurantIdentifier pd (some "127.0.0.1") = none) ∧
    (∀ pd, extractRestaurantIdentifier pd (some "www.localhost") = none) ∧
    extractRestaurantIdentifier "yourapi.com" (some "goldchopsticks.yourapi.com")
      = some "goldchopsticks" ∧
    extractRestaurantIdentifier "yourapi.com" (some "www.yourapi.com") = none ∧
    (∀ pd h, h ≠ "" → (∀ c ∈ h.data, c ≠ ':') →
      ¬ pd.data <:+: h.data → ¬ ("localhost" : String).data <:+: h.data →
      h ≠ "127.0.0.1" →
      extractRestaurantIdentifier pd (some h) = some h) := by
  refine ⟨fun pd => rfl, fun pd => rfl, fun pd => rfl, fun pd => rfl, fun pd => rfl,
    by rfl, by rfl, ?_⟩
  intro pd h h0 hc hpd hlh h127
  have hclean : stripPort h = h := by
    unfold stripPort
    have hself : h.data.takeWhile (fun c => decide (c ≠ ':')) = h.data :=
      List.takeWhile_eq_self_iff.2 (fun c hm => decide_eq_true (hc c hm))
    rw [hself]
  have h1 : ¬(h = "localhost" ∨ h = "127.0.0.1") := by
    rintro (rfl | rfl)
    · exact hlh (List.infix_refl _)
    · exact h127 rfl
  have h2 : jsEndsWith h ".localhost" = false := by
    unfold jsEndsWith
    refine decide_eq_false ?_
    intro hsuf
    have hdot : ("localhost" : String).data <:+ (".localhost" : String).data :=
      List.suffix_cons '.' _
    exact hlh ((hdot.trans hsuf).isInfix)
  have h3 : jsEndsWith h ("." ++ pd) = false := by
    unfold jsEndsWith
    refine decide_eq_false ?_
    intro hsuf
    have hdot : pd.data <:+ ("." ++ pd).data := by
      rw [String.data_append]
      exact List.suffix_cons '.' pd.data
    exact hpd ((hdot.trans hsuf).isInfix)
  have h4 : jsIncludes h pd = false := by
    unfold jsIncludes
    exact decide_eq_false hpd
  have h5 : jsIncludes h "localhost" = false := by
    unfold jsIncludes
    exact decide_eq_false hlh
  simp only [extractRestaurantIdentifier, hclean]
  rw [if_neg h0, if_neg h1, if_neg (by simp [h2]), if_neg (by simp [h3]),
    if_pos (by simp [h4, h5])]

/-- C8 witness: the amended custom-domain clause applied to the host
'pizzaplace.ca' under platform domain 'yourapi.com'. -/
theorem extract_identifier_characterization_witness :
    extractRestaurantIdentifier "yourapi.com" (some "pizzaplace.ca")
      = some "pizzaplace.ca" :=
  extract_identifier_characterization.2.2.2.2.2.2.2 "yourapi.com" "pizzaplace.ca"
    (by decide) (by decide) (by decide) (by decide) (by decide)

/-- C9 (confirmed): the combo-availability equivalence mapping sends every
combo type id in {3, 4, 5, 6, 7} to combo type 3's declared availability rows,
while combo types 1 and 2 query their own rows; consequently any two members of
the group have identical selectable-item queries. -/
theorem combo_availability_equivalence_group (db : DB) :
    (∀ c ∈ ([3, 4, 5, 6, 7] : List Nat),
      comboItemsQuery db c = declaredAvailableItems db 3) ∧
    comboItemsQuery db 1 = declaredAvailableItems db 1 ∧
    comboItemsQuery db 2 = declaredAvailableItems db 2 ∧
    (∀ c₁ ∈ ([3, 4, 5, 6, 7] : List Nat), ∀ c₂ ∈ ([3, 4, 5, 6, 7] : List Nat),
      comboItemsQuery db c₁ = comboItemsQuery db c₂) := by
  have hgrp : ∀ c ∈ ([3, 4, 5, 6, 7] : List Nat),
      comboItemsQuery db c = declaredAvailableItems db 3 := by
    intro c hcm
    have heff : effectiveAvailabilityId c = 3 := by
      rcases (by simpa using hcm : c = 3 ∨ c = 4 ∨ c = 5 ∨ c = 6 ∨ c = 7) with
        rfl | rfl | rfl | rfl | rfl <;> rfl
    simp [comboItemsQuery, heff]
  refine ⟨hgrp, rfl, rfl, ?_⟩
  intro c₁ h₁ c₂ h₂
  rw [hgrp c₁ h₁, hgrp c₂ h₂]

/-- C9 witness: on the concrete availability table, fetching combo type 5's
selectable items returns exactly the rows declared for combo type 3. -/
theorem combo_availability_equivalence_group_witness :
    comboItemsQuery demoAvailDb 5 = declaredAvailableItems demoAvailDb 3 :=
  (combo_availability_equivalence_group demoAvailDb).1 5 (by decide)

/-- Reaching the totals presence check with `basicCheck` passing means all
three of subtotal, tax, total were truthy. -/
theorem basicCheck_none_totals (req : OrderRequest) (h : basicCheck req = none) :
    truthyNum req.subtotal = true ∧ truthyNum req.tax = true ∧
    truthyNum req.total = true := by
  unfold basicCheck at h
  split at h
  · simp at h
  · split at h
    · simp at h
    · split at h
      · simp at h
      · split at h
        · simp at h
        · split at h
          · simp at h
          · split at h
            · simp at h
            · next hcond =>
                have h3 := (by simpa using hcond :
                  (truthyNum req.subtotal = true ∧ truthyNum req.tax = true) ∧
                    truthyNum req.total = true)
                exact ⟨h3.1.1, h3.1.2, h3.2⟩

/-- C10 (confirmed, with request-body numbers modelled as numeric-or-absent per
the API schema): when the earlier field validations pass, a falsy subtotal, tax
or total — including an explicitly present 0 — is answered with the 400
message 'Order totals are required'; hence every created order has nonzero
subtotal, tax and total, while a missing or zero deliveryFee is accepted and
stored as 0. -/
theorem zero_totals_never_created
    (db : DB) (rid : Nat) (req : OrderRequest) (failItem : Nat → Bool) :
    ((preTotalsChecksPass req = true ∧
      (truthyNum req.subtotal = false ∨ truthyNum req.tax = false ∨
        truthyNum req.total = false)) →
      handleCreateOrder db rid req failItem
        = (.badRequest "Order totals are required", db)) ∧
    (∀ o db', handleCreateOrder db rid req failItem = (.created o, db') →
      o.subtotal ≠ 0 ∧ o.tax ≠ 0 ∧ o.total ≠ 0 ∧
      ((req.deliveryFee = none ∨ req.deliveryFee = some 0) → o.deliveryFee = 0)) := by
  have hval : ∀ v : Option ℚ, truthyNum v = true → jsNumOr0 v ≠ 0 := by
    intro v hv
    cases v with
    | none => simp [truthyNum] at hv
    | some q =>
      simp [truthyNum] at hv
      simpa [jsNumOr0] using hv
  constructor
  · rintro ⟨hpre, hfalsy⟩
    unfold preTotalsChecksPass at hpre
    simp only [Bool.and_eq_true] at hpre
    obtain ⟨⟨⟨⟨hA, hB⟩, hC⟩, hD⟩, hE⟩ := hpre
    have hB2 : req.orderType ∈ validOrderTypes := List.elem_iff.1 hB.2
    have hD2 : req.paymentMethod ∈ validPaymentMethods := List.elem_iff.1 hD.2
    have hC2 : req.orderType = "delivery" → truthyOptStr req.customerAddress = true := by
      intro hod
      rcases (by simpa using hC :
        ¬(req.orderType = "delivery") ∨ truthyOptStr req.customerAddress = true) with hx | hx
      · exact absurd hod hx
      · exact hx
    have hb : basicCheck req = some "Order totals are required" := by
      unfold basicCheck
      rw [if_neg (by simp [hA]),
        if_neg (by simp [hB.1, hB2]),
        if_neg (by
          intro hcontra
          simp only [Bool.and_eq_true, beq_iff_eq, Bool.not_eq_true'] at hcontra
          exact absurd (hC2 hcontra.1) (by simp [hcontra.2])),
        if_neg (by simp [hD.1, hD2]),
        if_neg (by simp_all),
        if_pos (by rcases hfalsy with hf | hf | hf <;> simp [hf])]
    simp [handleCreateOrder, hb]
  · intro o db' h
    obtain ⟨ho, hbnone, -, -⟩ := handleCreateOrder_created_spec db rid req failItem o db' h
    subst ho
    obtain ⟨hs, ht, htot⟩ := basicCheck_none_totals req hbnone
    refine ⟨hval _ hs, hval _ ht, hval _ htot, ?_⟩
    intro hd
    rcases hd with hd | hd <;> simp [mkOrder, hd, jsNumOr0]

/-- C10 witness: the theorem applied to the zero-tax cart (rejected with the
totals message) and to a valid cart with no deliveryFee (created with
deliveryFee stored as 0 and nonzero totals). -/
theorem zero_totals_never_created_witness :
    handleCreateOrder demoDb 1 requestZeroTax (fun _ => false)
      = (.badRequest "Order totals are required", demoDb) ∧
    ((mkOrder demoDb 1 requestValidSingle).subtotal ≠ 0 ∧
      (mkOrder demoDb 1 requestValidSingle).tax ≠ 0 ∧
      (mkOrder demoDb 1 requestValidSingle).total ≠ 0 ∧
      ((requestValidSingle.deliveryFee = none ∨ requestValidSingle.deliveryFee = some 0) →
        (mkOrder demoDb 1 requestValidSingle).deliveryFee = 0)) :=
  ⟨(zero_totals_never_created demoDb 1 requestZeroTax (fun _ => false)).1
      ⟨by decide, Or.inr (by decide)⟩,
   (zero_totals_never_created demoDb 1 requestValidSingle (fun _ => false)).2
      (mkOrder demoDb 1 requestValidSingle)
      (handleCreateOrder demoDb 1 requestValidSingle (fun _ => false)).2 (by decide)⟩
